import Mathlib

/-!
Shallow embedding of the client-side state layer of the KickShop storefront
(`src/app/frontend/src/App.js`): the session store, the cart synchronization
engine, the catalog filter pipeline and the cart enrichment resolver.

Asynchronous network round trips are modelled by passing the response of the
server for each request as an explicit argument (the app is single-threaded
and the steps of each operation are sequential, so an operation is a pure
function from its server responses and the current state to the next state
together with the trace of events it produces).  Events record issued
requests, completed round trips, user-facing toast notifications and console
logs.  JS numbers occurring as prices and sizes are modelled by `ℚ`.
-/

namespace Shop

/-- Server-sourced product record (`Product` in the data model). -/
structure Product where
  id : Nat
  name : String
  brand : String
  category : String
  price : ℚ
  description : String
  image_url : String
  sizes : List ℚ
deriving Repr, DecidableEq

/-- One server-tracked cart line (`CartItem` in the data model). -/
structure CartItem where
  id : Nat
  product_id : Nat
  size : ℚ
  quantity : Nat
deriving Repr, DecidableEq

/-- Server-sourced user profile. -/
structure UserProfile where
  id : Nat
  email : String
  full_name : String
deriving Repr, DecidableEq

/-- Does `hay` start with `needle`?  (Helper for the JS `String.includes`.) -/
def charsLead : List Char → List Char → Bool
  | [], _ => true
  | _ :: _, [] => false
  | a :: as, b :: bs => a == b && charsLead as bs

/-- Does `hay` contain `needle` as a contiguous run?  Mirrors the semantics of
JS `hay.includes(needle)`: the empty needle always matches. -/
def charsHave (needle : List Char) : List Char → Bool
  | [] => charsLead needle []
  | c :: t => charsLead needle (c :: t) || charsHave needle t

/-- JS `hay.includes(needle)` on strings. -/
def includesJS (hay needle : String) : Bool :=
  charsHave needle.data hay.data

/-- ASCII lowercasing of one character, as JS `toLowerCase` acts on the
ASCII range the catalog uses. -/
def jsLowerChar (c : Char) : Char :=
  if 65 ≤ c.toNat ∧ c.toNat ≤ 90 then Char.ofNat (c.toNat + 32) else c

/-- JS `s.toLowerCase()`. -/
def toLowerJS (s : String) : String :=
  ⟨s.data.map jsLowerChar⟩

/-- The catalog filter pipeline, `filterProducts` in `App.js` (lines
553-572): three sequential conditional `Array.filter` passes over the raw
product list.  JS truthiness of `searchTerm` means the search pass runs
exactly when the term is nonempty. -/
def filterProducts (products : List Product)
    (selectedCategory selectedBrand searchTerm : String) : List Product :=
  let f1 := if selectedCategory = "all" then products
    else products.filter (fun p => p.category == selectedCategory)
  let f2 := if selectedBrand = "all" then f1
    else f1.filter (fun p => p.brand == selectedBrand)
  if searchTerm = "" then f2
  else f2.filter (fun p =>
    includesJS (toLowerJS p.name) (toLowerJS searchTerm) ||
    includesJS (toLowerJS p.description) (toLowerJS searchTerm))

lemma stage_sublist (l : List Product) (c : Prop) [Decidable c] (f : Product → Bool) :
    (if c then l else l.filter f).Sublist l := by
  split
  · exact List.Sublist.refl l
  · exact List.filter_sublist l

lemma filterProducts_sublist (P : List Product) (c b s : String) :
    (filterProducts P c b s).Sublist P := by
  unfold filterProducts
  exact ((stage_sublist _ _ _).trans (stage_sublist _ _ _)).trans (stage_sublist _ _ _)

/-- Membership characterization of the filter pipeline: a product is kept
exactly when it was present and every enabled predicate holds. -/
lemma mem_filterProducts_iff (p : Product) (P : List Product) (c b s : String) :
    p ∈ filterProducts P c b s ↔
      p ∈ P ∧ (c = "all" ∨ p.category = c) ∧ (b = "all" ∨ p.brand = b) ∧
        (s = "" ∨ (includesJS (toLowerJS p.name) (toLowerJS s) = true ∨
          includesJS (toLowerJS p.description) (toLowerJS s) = true)) := by
  by_cases hc : c = "all" <;> by_cases hb : b = "all" <;> by_cases hs : s = "" <;>
    simp [filterProducts, hc, hb, hs, List.mem_filter] <;> tauto

lemma filterProducts_eq_self (Q : List Product) (c b s : String)
    (h : ∀ p ∈ Q, (c = "all" ∨ p.category = c) ∧ (b = "all" ∨ p.brand = b) ∧
      (s = "" ∨ (includesJS (toLowerJS p.name) (toLowerJS s) = true ∨
        includesJS (toLowerJS p.description) (toLowerJS s) = true))) :
    filterProducts Q c b s = Q := by
  have h1 : (if c = "all" then Q else Q.filter (fun p => p.category == c)) = Q := by
    split
    · rfl
    · next hc =>
      apply List.filter_eq_self.mpr
      intro p hp
      rcases (h p hp).1 with hcc | hcc
      · exact absurd hcc hc
      · simp [hcc]
  have h2 : (if b = "all" then Q else Q.filter (fun p => p.brand == b)) = Q := by
    split
    · rfl
    · next hb =>
      apply List.filter_eq_self.mpr
      intro p hp
      rcases (h p hp).2.1 with hbb | hbb
      · exact absurd hbb hb
      · simp [hbb]
  simp only [filterProducts, h1, h2]
  split
  · rfl
  · next hs =>
    apply List.filter_eq_self.mpr
    intro p hp
    rcases (h p hp).2.2 with hss | hss | hss
    · exact absurd hss hs
    · simp [hss]
    · simp [hss]

lemma filterProducts_idem (P : List Product) (c b s : String) :
    filterProducts (filterProducts P c b s) c b s = filterProducts P c b s := by
  apply filterProducts_eq_self
  intro p hp
  exact ((mem_filterProducts_iff p P c b s).mp hp).2

/-- A user-facing toast notification (`toast.success` / `toast.error`). -/
inductive Note where
  | success (msg : String)
  | error (msg : String)
deriving Repr, DecidableEq

/-- A request to one of the consumed REST endpoints.  The token argument is
the value of the `token` state read when the request is issued. -/
inductive Req where
  | authLogin (email password : String)
  | authRegister (email password full_name : String)
  | authMe (tok : Option String)
  | cartGet (tok : Option String)
  | cartAdd (tok : Option String) (product_id : Nat) (size : ℚ) (quantity : Nat)
  | cartDelete (tok : Option String) (item_id : Nat)
  | productGet (id : Nat)
deriving Repr, DecidableEq

/-- One observable event of an operation: a request being issued, a round
trip completing (successfully or not), a toast, or a console log. -/
inductive Ev where
  | request (r : Req)
  | response (r : Req) (ok : Bool)
  | note (n : Note)
  | log (msg : String)
deriving Repr, DecidableEq

/-- Is this event a request to one of the cart endpoints? -/
def Ev.isCartReq : Ev → Bool
  | .request (.cartGet _) => true
  | .request (.cartAdd _ _ _ _) => true
  | .request (.cartDelete _ _) => true
  | _ => false

/-- Is this event a `GET /cart` request (a cart resync being issued)? -/
def Ev.isCartGetReq : Ev → Bool
  | .request (.cartGet _) => true
  | _ => false

/-- Is this event an error toast? -/
def Ev.isErrNote : Ev → Bool
  | .note (.error _) => true
  | _ => false

/-- The user-facing notifications contained in an event trace. -/
def userNotes (evs : List Ev) : List Note :=
  evs.filterMap (fun e => match e with | .note n => some n | _ => none)

/-- The client-side state the claims are about: the session store
(`user`/`token` React state plus the persisted `localStorage` token) and the
state of the cart synchronization engine (`cartItems`/`cartCount`). -/
structure AppState where
  user : Option UserProfile
  token : Option String
  storageToken : Option String
  cartItems : List CartItem
  cartCount : Nat
deriving Repr, DecidableEq

/-- The count computation `response.data.reduce((sum, item) => sum + item.quantity, 0)`
(App.js line 112). -/
def sumQuantities (items : List CartItem) : Nat :=
  items.foldl (fun sum item => sum + item.quantity) 0

/-- Embeds `fetchCart` (App.js lines 106-116): on success replaces the cart items
wholesale and recomputes the count; on failure only logs. -/
def fetchCart (resp : Except Unit (List CartItem)) (s : AppState) :
    AppState × List Ev :=
  match resp with
  | .ok items =>
      ({ s with cartItems := items, cartCount := sumQuantities items },
       [.request (.cartGet s.token), .response (.cartGet s.token) true])
  | .error _ =>
      (s, [.request (.cartGet s.token), .response (.cartGet s.token) false,
           .log "Failed to fetch cart:"])

/-- The reason a login request fails on the server side; the catch
block of the client cannot distinguish these. -/
inductive AuthFailCause where
  | badEmail
  | badPassword
  | network
deriving Repr, DecidableEq

/-- Embeds `login` (App.js lines 42-54).  On success stores the returned token in
state and `localStorage`; on any failure leaves the state alone and toasts a
fixed generic message.  Returns the boolean the JS function returns. -/
def login (email password : String) (resp : Except AuthFailCause String)
    (s : AppState) : (AppState × List Ev) × Bool :=
  match resp with
  | .ok access_token =>
      (({ s with token := some access_token, storageToken := some access_token },
        [.request (.authLogin email password),
         .response (.authLogin email password) true,
         .note (.success "Connexion réussie!")]), true)
  | .error _ =>
      ((s, [.request (.authLogin email password),
            .response (.authLogin email password) false,
            .note (.error "Email ou mot de passe incorrect")]), false)

/-- The fallback `error.response?.data?.detail || default` — JS `||` falls through on a
missing or empty detail string. -/
def detailOr (detail : Option String) (dflt : String) : String :=
  match detail with
  | some d => if d = "" then dflt else d
  | none => dflt

/-- Embeds `register` (App.js lines 56-65). -/
def register (email password full_name : String)
    (resp : Except (Option String) Unit) (s : AppState) :
    (AppState × List Ev) × Bool :=
  match resp with
  | .ok _ =>
      ((s, [.request (.authRegister email password full_name),
            .response (.authRegister email password full_name) true,
            .note (.success "Inscription réussie! Vous pouvez maintenant vous connecter.")]), true)
  | .error detail =>
      ((s, [.request (.authRegister email password full_name),
            .response (.authRegister email password full_name) false,
            .note (.error (detailOr detail "Erreur lors de l\x27inscription"))]), false)

/-- Embeds `logout` (App.js lines 67-72): clears the profile, the token and the
persisted token, then toasts a success message. -/
def logout (s : AppState) : AppState × List Ev :=
  ({ s with user := none, token := none, storageToken := none },
   [.note (.success "Déconnexion réussie")])

/-- Embeds `fetchUser` (App.js lines 30-40): resolves the profile from the token;
on any failure logs and performs a forced `logout`. -/
def fetchUser (resp : Except Unit UserProfile) (s : AppState) :
    AppState × List Ev :=
  match resp with
  | .ok profile =>
      ({ s with user := some profile },
       [.request (.authMe s.token), .response (.authMe s.token) true])
  | .error _ =>
      let r := logout s
      (r.1, [.request (.authMe s.token), .response (.authMe s.token) false,
             .log "Failed to fetch user:"] ++ r.2)

/-- The `CartProvider` effect on `token` (App.js lines 97-104): with a token
present it resyncs the cart, otherwise it clears items and count. -/
def cartTokenEffect (resp : Except Unit (List CartItem)) (s : AppState) :
    AppState × List Ev :=
  match s.token with
  | some _ => fetchCart resp s
  | none => ({ s with cartItems := [], cartCount := 0 }, [])

/-- A user-visible logout: the `logout` call followed by the cart effect the
token change triggers. -/
def logoutFlow (resp : Except Unit (List CartItem)) (s : AppState) :
    AppState × List Ev :=
  let r := logout s
  let r2 := cartTokenEffect resp r.1
  (r2.1, r.2 ++ r2.2)

/-- Embeds `addToCart` (App.js lines 118-129): posts the line, and on success
resyncs through `fetchCart` and toasts; on failure only toasts an error.
The unawaited `fetchCart()` is modelled as completing before the toast,
which is immaterial to the stated properties. -/
def addToCart (productId : Nat) (size : ℚ) (quantity : Nat)
    (addResp : Except Unit Unit) (cartResp : Except Unit (List CartItem))
    (s : AppState) : AppState × List Ev :=
  match addResp with
  | .ok _ =>
      let r := fetchCart cartResp s
      (r.1, .request (.cartAdd s.token productId size quantity) ::
            .response (.cartAdd s.token productId size quantity) true ::
            r.2 ++ [.note (.success "Produit ajouté au panier!")])
  | .error _ =>
      (s, [.request (.cartAdd s.token productId size quantity),
           .response (.cartAdd s.token productId size quantity) false,
           .note (.error "Erreur lors de l\x27ajout au panier")])

/-- Embeds `removeFromCart` (App.js lines 131-141). -/
def removeFromCart (itemId : Nat) (delResp : Except Unit Unit)
    (cartResp : Except Unit (List CartItem)) (s : AppState) :
    AppState × List Ev :=
  match delResp with
  | .ok _ =>
      let r := fetchCart cartResp s
      (r.1, .request (.cartDelete s.token itemId) ::
            .response (.cartDelete s.token itemId) true ::
            r.2 ++ [.note (.success "Produit retiré du panier")])
  | .error _ =>
      (s, [.request (.cartDelete s.token itemId),
           .response (.cartDelete s.token itemId) false,
           .note (.error "Erreur lors de la suppression")])

/-- The `products` JS object of `CartModal`, keyed by `product_id`; a later
assignment to the same key shadows the earlier one. -/
def PMap : Type := List (Nat × Product)

instance : DecidableEq PMap := by
  unfold PMap
  exact inferInstance

/-- Key lookup in the product map (`products[item.product_id]`). -/
def pmGet (m : PMap) (pid : Nat) : Option Product :=
  (List.find? (fun e => e.1 == pid) m).map (fun e => e.2)

/-- Key assignment in the product map (`productMap[item.product_id] = ...`). -/
def pmSet (m : PMap) (pid : Nat) (p : Product) : PMap :=
  (pid, p) :: m

/-- The `total` computation of `CartModal` (App.js lines 313-316): a reduce over the cart
items where an item whose product is absent from the map adds `0`. -/
def cartTotal (m : PMap) (cartItems : List CartItem) : ℚ :=
  cartItems.foldl (fun sum item =>
    sum + (match pmGet m item.product_id with
           | some product => product.price * (item.quantity : ℚ)
           | none => 0)) 0

/-- The cart lines `CartModal` actually renders (App.js lines 328-331): the
map over `cartItems` returns `null` for an item whose product has not
resolved, so exactly the items with a resolved product are enumerated. -/
def renderedCartItems (m : PMap) (cartItems : List CartItem) : List CartItem :=
  cartItems.filter (fun item => (pmGet m item.product_id).isSome)

/-- The price the map holds for a product id (`0` when unresolved). -/
def priceIn (m : PMap) (pid : Nat) : ℚ :=
  match pmGet m pid with
  | some p => p.price
  | none => 0

/-- The loop of `fetchProductDetails` (App.js lines 300-311): for every cart
item, one `GET /products/{id}` round trip; a success stores the product in
the map being built, a failure only logs. -/
def fpdLoop (server : Nat → Except Unit Product) (items : List CartItem)
    (m : PMap) : PMap × List Ev :=
  match items with
  | [] => (m, [])
  | item :: rest =>
      match server item.product_id with
      | .ok p =>
          let r := fpdLoop server rest (pmSet m item.product_id p)
          (r.1, .request (.productGet item.product_id) ::
                .response (.productGet item.product_id) true :: r.2)
      | .error _ =>
          let r := fpdLoop server rest m
          (r.1, .request (.productGet item.product_id) ::
                .response (.productGet item.product_id) false ::
                .log "Failed to fetch product:" :: r.2)

/-- Embeds `fetchProductDetails` (App.js lines 300-311): starts from a fresh empty
`productMap` — the existing `products` cache is not consulted — and ends by
replacing `products` wholesale with the built map. -/
def fetchProductDetails (server : Nat → Except Unit Product)
    (cartItems : List CartItem) : PMap × List Ev :=
  fpdLoop server cartItems []

/-- The `CartModal` effect on `cartItems` (App.js lines 294-298): runs
`fetchProductDetails` only when the collection is nonempty; otherwise the
previous `products` map stays. -/
def cartItemsChangeEffect (server : Nat → Except Unit Product)
    (cartItems : List CartItem) (products : PMap) : PMap × List Ev :=
  if cartItems.length > 0 then fetchProductDetails server cartItems
  else (products, [])

/-- The ids of the product-detail fetches an event trace issues, in order. -/
def productGetIds (evs : List Ev) : List Nat :=
  evs.filterMap (fun e => match e with
    | .request (.productGet pid) => some pid
    | _ => none)

lemma sumQuantities_aux (l : List CartItem) : ∀ (a : Nat),
    List.foldl (fun sum item => sum + item.quantity) a l =
      a + (l.map (fun i => i.quantity)).sum := by
  induction l with
  | nil => intro a; simp
  | cons x xs ih => intro a; simp [List.foldl_cons, ih, List.sum_cons, add_assoc]

lemma sumQuantities_eq (l : List CartItem) :
    sumQuantities l = (l.map (fun i => i.quantity)).sum := by
  simpa using sumQuantities_aux l 0

lemma cartTotal_aux (m : PMap) (l : List CartItem) : ∀ (a : ℚ),
    List.foldl (fun sum item => sum +
      (match pmGet m item.product_id with
       | some product => product.price * (item.quantity : ℚ)
       | none => 0)) a l
      = a + (l.map (fun item =>
          match pmGet m item.product_id with
          | some product => product.price * (item.quantity : ℚ)
          | none => 0)).sum := by
  induction l with
  | nil => intro a; simp
  | cons x xs ih => intro a; simp [List.foldl_cons, ih, List.sum_cons, add_assoc]

lemma sum_match_eq_filtered (m : PMap) : ∀ (l : List CartItem),
    (l.map (fun item =>
      match pmGet m item.product_id with
      | some product => product.price * (item.quantity : ℚ)
      | none => 0)).sum
      = ((renderedCartItems m l).map
          (fun i => priceIn m i.product_id * (i.quantity : ℚ))).sum := by
  intro l
  induction l with
  | nil => simp [renderedCartItems]
  | cons x xs ih =>
      cases h : pmGet m x.product_id <;>
        simp [renderedCartItems, List.filter_cons, h, priceIn, ih]

lemma cartTotal_eq_sum (m : PMap) (l : List CartItem) :
    cartTotal m l = ((renderedCartItems m l).map
      (fun i => priceIn m i.product_id * (i.quantity : ℚ))).sum := by
  have h := cartTotal_aux m l 0
  simp only [cartTotal, h, zero_add]
  exact sum_match_eq_filtered m l

/-- Claim C1: after every successful `fetchCart`, the derived cart count is
the sum of the `quantity` fields over the new cart item collection, for
every list of items the server returns; on a two-quantity singleton the
count differs from the item count, so it is never the number of items. -/
theorem fetchCart_count_is_sum_of_quantities (items : List CartItem)
    (s : AppState) :
    ((fetchCart (.ok items) s).1).cartCount =
      (((fetchCart (.ok items) s).1).cartItems.map (fun i => i.quantity)).sum ∧
    ((fetchCart (.ok [⟨1, 1, 42, 2⟩]) s).1).cartCount ≠
      ((fetchCart (.ok [⟨1, 1, 42, 2⟩]) s).1).cartItems.length := by
  constructor
  · simp [fetchCart, sumQuantities_eq]
  · simp [fetchCart, sumQuantities]

/-- Claim C2: the filter pipeline is the identity on the all-pass criteria,
is idempotent, and always returns a subsequence of the input in the original
relative order. -/
theorem filterProducts_identity_idem_stable (P : List Product)
    (c b s : String) :
    filterProducts P "all" "all" "" = P ∧
    filterProducts (filterProducts P c b s) c b s = filterProducts P c b s ∧
    (filterProducts P c b s).Sublist P := by
  refine ⟨?_, filterProducts_idem P c b s, filterProducts_sublist P c b s⟩
  simp [filterProducts]

/-- Claim C3: a product is in the filtered result iff it is in the input and
the category criterion is `"all"` or equals its category exactly, the brand
criterion is `"all"` or equals its brand exactly, and the search term is
empty or is a case-insensitive substring of its name or description. -/
theorem filterProducts_membership (p : Product) (P : List Product)
    (c b s : String) :
    p ∈ filterProducts P c b s ↔
      p ∈ P ∧ (c = "all" ∨ p.category = c) ∧ (b = "all" ∨ p.brand = b) ∧
        (s = "" ∨ (includesJS (toLowerJS p.name) (toLowerJS s) = true ∨
          includesJS (toLowerJS p.description) (toLowerJS s) = true)) :=
  mem_filterProducts_iff p P c b s

/-- Claim C4: the cart total is the sum of `price * quantity` over exactly
the items whose product has resolved in the map; appending an unresolved
item leaves the total unchanged (it contributes exactly 0) and the item is
excluded from the rendered enumeration.  `cartTotal` is a total function,
so the computation never fails. -/
theorem cartTotal_resolved_items_only (m : PMap) (items : List CartItem)
    (i : CartItem) (h : pmGet m i.product_id = none) :
    cartTotal m items =
      ((renderedCartItems m items).map
        (fun x => priceIn m x.product_id * (x.quantity : ℚ))).sum ∧
    cartTotal m (items ++ [i]) = cartTotal m items ∧
    i ∉ renderedCartItems m items := by
  refine ⟨cartTotal_eq_sum m items, ?_, ?_⟩
  · rw [cartTotal_eq_sum, cartTotal_eq_sum]
    simp [renderedCartItems, List.filter_append, h]
  · simp [renderedCartItems, List.mem_filter, h]

def p4 : Product :=
  ⟨1, "Classic Boot", "Timberland", "boots", 180, "leather boot", "img", [42]⟩

def m4 : PMap := [(1, p4)]

def it4 : CartItem := ⟨3, 1, 42, 2⟩

def i4 : CartItem := ⟨9, 7, 41, 3⟩

/-- Witness for claim C4 at a concrete map and cart. -/
theorem cartTotal_resolved_items_only_witness :
    pmGet m4 i4.product_id = none ∧
    (cartTotal m4 [it4] =
      ((renderedCartItems m4 [it4]).map
        (fun x => priceIn m4 x.product_id * (x.quantity : ℚ))).sum ∧
    cartTotal m4 ([it4] ++ [i4]) = cartTotal m4 [it4] ∧
    i4 ∉ renderedCartItems m4 [it4]) :=
  ⟨rfl, cartTotal_resolved_items_only m4 [it4] i4 rfl⟩

/-- Claim C5: after a logout the persisted token is gone, the profile is
null, the cart collection is empty and the count 0; a second logout from the
logged-out state leaves the state identical and emits no error. -/
theorem logout_clears_and_idempotent (r r2 : Except Unit (List CartItem))
    (s : AppState) :
    (logoutFlow r s).1.storageToken = none ∧
    (logoutFlow r s).1.user = none ∧
    (logoutFlow r s).1.token = none ∧
    (logoutFlow r s).1.cartItems = [] ∧
    (logoutFlow r s).1.cartCount = 0 ∧
    (logoutFlow r2 (logoutFlow r s).1).1 = (logoutFlow r s).1 ∧
    ((logoutFlow r2 (logoutFlow r s).1).2.all (fun e => !(e.isErrNote))) = true := by
  simp [logoutFlow, logout, cartTokenEffect, Ev.isErrNote]

/-- Claim C7: a failing login returns `false`, leaves the session state
(token, user, persisted storage) exactly unchanged, emits exactly one
generic authentication-failure notification that is the same whichever field
was wrong, and issues no request to a cart endpoint. -/
theorem login_failure_generic_and_inert (cause : AuthFailCause)
    (email password : String) (s : AppState) :
    (login email password (.error cause) s).2 = false ∧
    (login email password (.error cause) s).1.1 = s ∧
    userNotes (login email password (.error cause) s).1.2 =
      [Note.error "Email ou mot de passe incorrect"] ∧
    ((login email password (.error cause) s).1.2.all
      (fun e => !(e.isCartReq))) = true ∧
    (∀ cause2 : AuthFailCause,
      (login email password (.error cause2) s).1.2 =
        (login email password (.error cause) s).1.2) := by
  refine ⟨rfl, rfl, ?_, ?_, ?_⟩
  · simp [login, userNotes]
  · simp [login, Ev.isCartReq]
  · intro cause2; rfl

/-- Claim C8: a failing `fetchCart` is logged and swallowed: the cart items
and count are exactly as before the call and no notification is emitted. -/
theorem fetchCart_failure_logged_and_swallowed (e : Unit) (s : AppState) :
    (fetchCart (.error e) s).1 = s ∧
    (fetchCart (.error e) s).1.cartItems = s.cartItems ∧
    (fetchCart (.error e) s).1.cartCount = s.cartCount ∧
    userNotes (fetchCart (.error e) s).2 = [] ∧
    Ev.log "Failed to fetch cart:" ∈ (fetchCart (.error e) s).2 := by
  simp [fetchCart, userNotes]

def s6 : AppState :=
  { user := some ⟨1, "ada@example.com", "Ada"⟩, token := some "tok",
    storageToken := some "tok", cartItems := [], cartCount := 0 }

/-- Counterexample to claim C6: the forced logout triggered by a
profile-resolution failure is not silent — it emits the logout success
toast, so its notification list is nonempty. -/
theorem fetchUser_forced_logout_not_silent :
    userNotes (fetchUser (.error ()) s6).2 = [Note.success "Déconnexion réussie"] ∧
    [Note.success "Déconnexion réussie"] ≠ ([] : List Note) := by
  constructor
  · simp [fetchUser, logout, s6, userNotes]
  · simp

/-- Claim C6 (amended): every session store operation — login, register,
user-invoked logout — emits exactly one user-facing outcome notification per
call, and so does the internal forced logout triggered by a
profile-resolution failure (the logout success toast), rather than being
silent; after the forced logout, profile reads return absent. -/
theorem session_ops_exactly_one_notification (email password full_name : String)
    (lr : Except AuthFailCause String) (rr : Except (Option String) Unit)
    (s : AppState) :
    (userNotes (login email password lr s).1.2).length = 1 ∧
    (userNotes (register email password full_name rr s).1.2).length = 1 ∧
    (userNotes (logout s).2).length = 1 ∧
    (userNotes (fetchUser (.error ()) s).2).length = 1 ∧
    (fetchUser (.error ()) s).1.user = none := by
  cases lr <;> cases rr <;>
    simp [login, register, logout, fetchUser, userNotes]

/-- Claim C9: `addToCart` performs no optimistic local insert — on a
successful add its final state is exactly the state `fetchCart` produces on
the pre-add state, and on a failed add the state is untouched; in its event
trace the add round trip completes (index 1) strictly before the cart resync
request is issued (index 2), and no resync request occurs before or without
the add round trip.  The same holds for `removeFromCart`. -/
theorem mutation_then_resync_protocol (pid : Nat) (sz : ℚ) (q iid : Nat)
    (cr : Except Unit (List CartItem)) (s : AppState) :
    (addToCart pid sz q (.ok ()) cr s).1 = (fetchCart cr s).1 ∧
    (removeFromCart iid (.ok ()) cr s).1 = (fetchCart cr s).1 ∧
    (addToCart pid sz q (.error ()) cr s).1 = s ∧
    (removeFromCart iid (.error ()) cr s).1 = s ∧
    (addToCart pid sz q (.ok ()) cr s).2[1]? =
      some (Ev.response (Req.cartAdd s.token pid sz q) true) ∧
    (addToCart pid sz q (.ok ()) cr s).2[2]? =
      some (Ev.request (Req.cartGet s.token)) ∧
    (((addToCart pid sz q (.ok ()) cr s).2.take 2).all
      (fun e => !(e.isCartGetReq))) = true ∧
    ((addToCart pid sz q (.error ()) cr s).2.all
      (fun e => !(e.isCartGetReq))) = true ∧
    (removeFromCart iid (.ok ()) cr s).2[1]? =
      some (Ev.response (Req.cartDelete s.token iid) true) ∧
    (removeFromCart iid (.ok ()) cr s).2[2]? =
      some (Ev.request (Req.cartGet s.token)) ∧
    (((removeFromCart iid (.ok ()) cr s).2.take 2).all
      (fun e => !(e.isCartGetReq))) = true ∧
    ((removeFromCart iid (.error ()) cr s).2.all
      (fun e => !(e.isCartGetReq))) = true := by
  cases cr <;>
    simp [addToCart, removeFromCart, fetchCart, Ev.isCartGetReq]

lemma fpdLoop_ids (server : Nat → Except Unit Product) :
    ∀ (items : List CartItem) (m : PMap),
      productGetIds (fpdLoop server items m).2 =
        items.map (fun i => i.product_id) := by
  intro items
  induction items with
  | nil => intro m; simp [fpdLoop, productGetIds]
  | cons i rest ih =>
      intro m
      cases h : server i.product_id <;>
        simp [fpdLoop, h, productGetIds, ih] <;>
        simpa [productGetIds] using ih _

def pX : Product :=
  ⟨1, "Air Max", "Nike", "sneakers", 120, "running shoe", "img", [42]⟩

def itemX : CartItem := ⟨5, 1, 42, 1⟩

def cacheX : PMap := [(1, pX)]

/-- Counterexample to claim C10: with product 1 already cached and a cart
holding one item for product 1, a cart-items change still issues one
product-detail fetch — the cache is never consulted, so the claimed "no
fetch for cached items" fails. -/
theorem enrichment_refetches_cached_product :
    pmGet cacheX itemX.product_id = some pX ∧
    productGetIds
      (cartItemsChangeEffect (fun _ => .ok pX) [itemX] cacheX).2 = [1] ∧
    ([1] : List Nat) ≠ [] := by
  refine ⟨rfl, ?_, by simp⟩
  simp [cartItemsChangeEffect, fetchProductDetails, fpdLoop, productGetIds, itemX]

/-- Claim C10 (amended): on every change to the CartItem collection the
enrichment resolver issues exactly one product-detail fetch per cart item —
including items whose product is already cached, since the previous cache is
never consulted (the trace is identical for any cache) and, for a nonempty
collection, is replaced wholesale by the freshly built map; on a change to
an empty collection no fetch is issued and the previous map is retained. -/
theorem enrichment_one_fetch_per_item (server : Nat → Except Unit Product)
    (items : List CartItem) (cache cache2 : PMap) :
    productGetIds (cartItemsChangeEffect server items cache).2 =
      items.map (fun i => i.product_id) ∧
    (cartItemsChangeEffect server items cache).2 =
      (cartItemsChangeEffect server items cache2).2 ∧
    (cartItemsChangeEffect server [] cache).1 = cache := by
  refine ⟨?_, ?_, rfl⟩
  · cases items with
    | nil => simp [cartItemsChangeEffect, productGetIds]
    | cons i rest =>
        simp [cartItemsChangeEffect, fetchProductDetails, fpdLoop_ids]
  · cases items with
    | nil => rfl
    | cons i rest => simp [cartItemsChangeEffect]

end Shop
